import Mathlib

/-!
Verification of the `wrld` command-line tool (src/wrld.py) against its
natural-language specification.

The development shallowly embeds the argument-expansion pipeline of
`wrld.py`: the sentinel-based brace escaping (line 347 and `insert_line`),
the argument classifier `preprocess_args` (lines 138-201), the per-item
expansion functions `pysub`, `cmdsub`, `subsub`, `pipesub` (lines 105-135),
the builtin registration table built by the `builtin` decorator factory
(lines 228-317), `check_args` (lines 219-225) and the dispatch logic at the
bottom of `main` (lines 320-408).

Python strings are modelled as `List Char`.  Host-environment effects that
the program merely invokes (the CPython expression evaluator reached through
`eval`, subprocess execution reached through `subprocess.run`, and the
`os.path.isdir` query) are supplied through a `Host` structure of oracles;
everything the repository's own code does with the oracle results is
modelled from the source.  Python exceptions are modelled with `Except`.
-/

set_option linter.unusedVariables false

namespace Wrld

/-! ## Python string primitives (CPython `str` methods on `List Char`) -/

/-- Literal `{` character (written via its code point throughout). -/
def lbrace : Char := Char.ofNat 0x7b

/-- Literal `}` character. -/
def rbrace : Char := Char.ofNat 0x7d

/-- Sentinel `BRACES` of wrld.py line 91: the private character
`U+C41BB` standing for an escaped `\x7b\x7d` during substitution. -/
def bracesChar : Char := Char.ofNat 0xC41BB

/-- Sentinel `BS` of wrld.py line 92: stands for an escaped backslash
while a substitution argument is split on its delimiter. -/
def bsChar : Char := Char.ofNat 0xC41BD

/-- Sentinel `DELIM` of wrld.py line 93: stands for an escaped delimiter
while a substitution argument is split on its delimiter. -/
def delimChar : Char := Char.ofNat 0xC41BE

/-- Python `str.isspace` on the ASCII whitespace characters (the only ones
arising here). -/
def pyIsSpace (c : Char) : Bool :=
  c == ' ' || c == '\t' || c == '\n' || c == '\x0d' || c == '\x0b' || c == '\x0c'

/-- Python `str.isalnum` restricted to the ASCII range (delimiters used by
the substitution syntax are ASCII). -/
def pyIsAlnum (c : Char) : Bool := c.isAlphanum

/-- Python `str.lstrip()` with no arguments: drop leading whitespace. -/
def pyLstrip (s : List Char) : List Char := s.dropWhile pyIsSpace

/-- Python `str.rstrip()` with no arguments: drop ALL trailing whitespace. -/
def pyRstrip (s : List Char) : List Char := (s.reverse.dropWhile pyIsSpace).reverse

/-- The trailing whitespace run that `str.rstrip()` removes. -/
def wsSuffix (s : List Char) : List Char := (s.reverse.takeWhile pyIsSpace).reverse

/-- Fuel-driven worker for `strReplace`; the fuel is the length of the
subject string, which bounds the number of steps. -/
def strReplaceFuel : Nat → List Char → List Char → List Char → List Char
  | 0, s, _, _ => s
  | _ + 1, [], _, _ => []
  | fuel + 1, c :: rest, pat, rep =>
    if !pat.isEmpty && pat.isPrefixOf (c :: rest) then
      rep ++ strReplaceFuel fuel ((c :: rest).drop pat.length) pat rep
    else
      c :: strReplaceFuel fuel rest pat rep

/-- Python `str.replace(pat, rep)` for a non-empty `pat`: replace the
leftmost non-overlapping occurrences, all of them.  (wrld.py never calls
`str.replace` with an empty pattern; on an empty pattern this model is the
identity.)  This also models `re.sub(pat, rep, s)` with the default
`count=0` for the regex-metacharacter-free patterns exercised here. -/
def strReplace (s pat rep : List Char) : List Char := strReplaceFuel s.length s pat rep

/-- Python `str.split(d)` for a single-character separator `d`. -/
def pySplitChar (d : Char) : List Char → List (List Char)
  | [] => [[]]
  | c :: rest =>
    if c == d then
      [] :: pySplitChar d rest
    else
      match pySplitChar d rest with
      | [] => [[c]]
      | g :: gs => (c :: g) :: gs

/-- Python `str.splitlines()` restricted to `\n` line boundaries (the only
boundary arising from the modelled subprocess output): no entry is produced
after a trailing newline, and the empty string yields no lines. -/
def pySplitlines (s : List Char) : List (List Char) :=
  match s with
  | [] => []
  | _ =>
    let parts := pySplitChar '\n' s
    if parts.getLast? == some [] then parts.dropLast else parts

/-- Worker for `shlexSplit`, accumulating the current word reversed. -/
def shlexWords : List Char → List Char → List (List Char)
  | [], acc => if acc.isEmpty then [] else [acc.reverse]
  | c :: rest, acc =>
    if pyIsSpace c then
      if acc.isEmpty then shlexWords rest [] else acc.reverse :: shlexWords rest []
    else
      shlexWords rest (c :: acc)

/-- Python `shlex.split` for command strings without quoting or backslash
escapes (none of the modelled behaviour depends on shell quoting): split on
whitespace runs, producing no empty tokens. -/
def shlexSplit (s : List Char) : List (List Char) := shlexWords s []

/-- Python `'\n'.join(xs)`. -/
def joinNL : List (List Char) → List Char
  | [] => []
  | [x] => x
  | x :: y :: rest => x ++ '\n' :: joinNL (y :: rest)

/-- Worker for `pyFileLines`. -/
def linesKeepNL : List Char → List Char → List (List Char)
  | [], acc => if acc.isEmpty then [] else [acc.reverse]
  | c :: rest, acc =>
    if c == '\n' then (acc.reverse ++ ['\n']) :: linesKeepNL rest []
    else linesKeepNL rest (c :: acc)

/-- Iterating a Python text file yields its lines with their trailing
newline kept (except possibly the last). -/
def pyFileLines (s : List Char) : List (List Char) := linesKeepNL s []

/-- Python `str.rstrip('\n')`: drop trailing newline characters. -/
def rstripNL (l : List Char) : List Char := (l.reverse.dropWhile (fun c => c == '\n')).reverse

/-- Python `os.path.basename`: the part after the last `/`. -/
def basename (s : List Char) : List Char := (s.reverse.takeWhile (fun c => c != '/')).reverse

/-- The string of `pathlib.Path(a, b)` for the non-degenerate POSIX cases
used by the destination-resolving builtins. -/
def pathJoin (a b : List Char) : List Char :=
  if a.isEmpty then b
  else if a.getLast? == some '/' then a ++ b
  else a ++ '/' :: b

/-! ## Data model -/

/-- Python exceptions and exits surfaced by the modelled code paths. -/
inductive PyErr where
  | indexError
  | valueError
  | typeError
  | unboundLocalError
  | usageExit
  | calledProcessError (exitCode : Nat)
deriving DecidableEq, Repr

/-- Values a `@py` scripted expression can produce (the fragment needed
here; Python tuples are collapsed into lists, iterators are out of model). -/
inductive PyValue where
  | str (s : List Char)
  | int (n : Int)
  | list (xs : List PyValue)

/-- Replacement field of a compiled substitution argument: plain text, or
(after the `\e` escape) the source of a compiled expression. -/
inductive SubRep where
  | str (s : List Char)
  | code (src : List Char)
deriving DecidableEq, Repr

/-- One entry of `code_subbed_args` together with its `sub_indicies` tag.
The source keeps a list and an index-keyed dict in lockstep (one list entry
appended per argument, with a tag recorded for the non-literal kinds); the
tagged list carries the same information.  `.lit` and `.cmd` are both
Python `str` values at runtime, distinguished only by the tag. -/
inductive CompiledArg where
  | lit (s : List Char)
  | py (src : List Char)
  | cmd (s : List Char)
  | sub (pat : List Char) (rep : SubRep)
  | pipe (lines : List (List Char))
deriving DecidableEq, Repr

/-- Registration data kept for one builtin: wrld.py stores
`(resolved_handler, num)` in `BUILTINS` and bakes `resolve_dest` into the
`resolved` closure; the file-system action itself is an external effect. -/
structure BuiltinEntry where
  num : Nat
  resolveDest : Bool
deriving DecidableEq, Repr

/-- Host-environment oracles: the CPython evaluator reached through `eval`
(with the mutable evaluation namespace and its `i`/`l` bindings abstracted
into the line argument), subprocess execution, and `os.path.isdir`. -/
structure Host where
  pyEval : List Char → List Char → PyValue
  matchEval : List Char → List Char → List Char
  run : List (List Char) → Option (List Char) → Nat × List Char
  isdir : List Char → Bool

/-- The command-line flags of `main` that the modelled control flow reads.
(`--previewer` and `--prompt` only trigger extra interactive side effects
and are not modelled.) -/
structure Flags where
  commandString : Bool
  noEcho : Bool
  test : Bool
deriving DecidableEq, Repr

/-- What the dispatcher at the end of `main` decides to do with one item's
final argument vector. -/
inductive Dispatch where
  | builtinCall (name : List Char) (args : List PyValue)
  | external (argv : List PyValue)

/-- Per-item outcome: the final argument vector and the action taken
(`none` under `--test`). -/
structure ItemResult where
  vector : List PyValue
  action : Option Dispatch

/-! ## Builtin registration (wrld.py lines 228-317) -/

/-- The `BUILTINS` table in registration order: `move` and `copy` are
registered `@builtin(2)` with the default `resolve_dest=False`; `slink`,
`srlink` and `hlink` pass `resolve_dest=True`; `remove` and `makedir` take
one argument. -/
def BUILTINS : List (List Char × BuiltinEntry) :=
  [("move".toList, ⟨2, false⟩), ("copy".toList, ⟨2, false⟩),
   ("slink".toList, ⟨2, true⟩), ("srlink".toList, ⟨2, true⟩),
   ("hlink".toList, ⟨2, true⟩), ("remove".toList, ⟨1, false⟩),
   ("makedir".toList, ⟨1, false⟩)]

/-- Dictionary lookup in `BUILTINS`. -/
def lookupBuiltin (name : List Char) : Option BuiltinEntry :=
  (BUILTINS.find? (fun p => p.1 == name)).map (·.2)

/-! ## Filter compiler: `preprocess_args` (wrld.py lines 138-201) -/

/-- The `elif arg.startswith('s') and not arg[1].isalnum()` branch body
(wrld.py lines 158-176): mask escaped backslashes and escaped delimiters
with sentinels, split on the delimiter, drop the leading `s` field, unpack
the three fields (a `ValueError` if there are not exactly three), unmask,
compile a `\e` replacement, fold remaining flag letters into the pattern —
and compute `count` from the `g` flag without ever storing it: only
`(pat, rep)` is appended to the compiled arguments. -/
def classifySub (arg : List Char) : Except PyErr CompiledArg :=
  match arg.get? 1 with
  | none => .error .indexError
  | some dlmtr =>
    let masked := strReplace (strReplace arg ('\\' :: '\\' :: []) [bsChar])
                    ('\\' :: dlmtr :: []) [delimChar]
    match (pySplitChar dlmtr masked).tail with
    | [p0, r0, f0] =>
      let unmask := fun (x : List Char) =>
        strReplace (strReplace x [bsChar] ('\\' :: '\\' :: [])) [delimChar] [dlmtr]
      let pat := unmask p0
      let rep0 := unmask r0
      let flags0 := unmask f0
      let rep : SubRep :=
        if ('\\' :: 'e' :: []).isPrefixOf rep0 then .code (pyLstrip (rep0.drop 2))
        else .str rep0
      let count := if flags0.contains 'g' then 0 else 1
      let flags1 := strReplace flags0 ['g'] []
      let pat1 := if !flags1.isEmpty then '(' :: '?' :: (flags1 ++ ')' :: pat) else pat
      .ok (.sub pat1 rep)
    | _ => .error .valueError

/-- Classification of one raw template argument (the body of the loop in
`preprocess_args`).  `compile` of a `@py` expression is modelled as storing
the expression source.  Indexing an argument that is too short raises
`IndexError`, exactly where the source indexes (`arg[1]` inside the `s`
condition, `arg[0]` in the pipe test).  A pipe argument runs its command
once with `check=True`: a nonzero exit raises `CalledProcessError`. -/
def classifyArg (host : Host) (stdin : Option (List Char)) (arg : List Char) :
    Except PyErr CompiledArg :=
  if ('@' :: 'p' :: 'y' :: ' ' :: []).isPrefixOf arg then
    .ok (.py (pyLstrip (arg.drop 4)))
  else
    match (if ['s'].isPrefixOf arg then
             match arg.get? 1 with
             | none => Except.error PyErr.indexError
             | some c => Except.ok (!(pyIsAlnum c))
           else Except.ok false : Except PyErr Bool) with
    | .error e => .error e
    | .ok true => classifySub arg
    | .ok false =>
      match arg.head? with
      | none => .error .indexError
      | some c0 =>
        if c0 == '|' then
          let res := host.run (shlexSplit arg.tail) stdin
          if res.1 ≠ 0 then .error (.calledProcessError res.1)
          else .ok (.pipe (pySplitlines res.2))
        else if c0 == '@' then .ok (.cmd arg.tail)
        else .ok (.lit (if c0 == '\\' then arg.tail else arg))

/-- `preprocess_args` (wrld.py lines 138-201): classify every template
argument in order; the first exception aborts the whole preprocessing. -/
def preprocess_args (host : Host) (args : List (List Char)) (stdin : Option (List Char)) :
    Except PyErr (List CompiledArg) :=
  match args with
  | [] => .ok []
  | a :: rest =>
    match classifyArg host stdin a with
    | .error e => .error e
    | .ok c =>
      match preprocess_args host rest stdin with
      | .error e => .error e
      | .ok cs => .ok (c :: cs)

/-! ## Per-item expansion (wrld.py lines 105-135, 204-211, 364-385) -/

/-- Brace substitution and sentinel restore applied to one Python string
argument (wrld.py lines 207-209): first insert the item text at every
`\x7b\x7d`, then turn protected sentinels back into literal `\x7b\x7d`. -/
def insertLineStr (line s : List Char) : List Char :=
  strReplace (strReplace s (lbrace :: rbrace :: []) line) [bracesChar] (lbrace :: rbrace :: [])

/-- `insert_line`'s `isinstance(arg, str)` test is true exactly for the
untagged literals and the `@`-command templates; compiled code objects,
substitution pairs and pipe-result lists pass through untouched. -/
def insertOne (line : List Char) : CompiledArg → CompiledArg
  | .lit s => .lit (insertLineStr line s)
  | .cmd s => .cmd (insertLineStr line s)
  | a => a

/-- `insert_line` (wrld.py lines 204-211). -/
def insert_line (line : List Char) (args : List CompiledArg) : List CompiledArg :=
  args.map (insertOne line)

/-- `pysub` (wrld.py lines 105-112) applied to the value the evaluator
produced: a list is returned as-is (each element becoming its own final
argument); any other value contributes one argument, its `str()`. -/
def pysub (value : PyValue) : List PyValue :=
  match value with
  | .list xs => xs
  | .str s => [.str s]
  | .int n => [.str ((toString n).toList)]

/-- `cmdsub` (wrld.py lines 115-119): shell-tokenize the stored command,
run it with the item text on stdin (exit status unchecked), and contribute
one argument, the captured stdout with `rstrip()` applied. -/
def cmdsub (host : Host) (arg line : List Char) : List PyValue :=
  let res := host.run (shlexSplit arg) (some line)
  [.str (pyRstrip res.2)]

/-- `subsub` (wrld.py lines 122-128): apply `re.sub(pat, rep, line)` — with
no count argument — to the item text.  A compiled `\e` replacement is
evaluated per match through the host oracle. -/
def subsub (host : Host) (pat : List Char) (rep : SubRep) (line : List Char) : List PyValue :=
  match rep with
  | .code src => [.str (strReplace line pat (host.matchEval src pat))]
  | .str r => [.str (strReplace line pat r)]

/-- `pipesub` (wrld.py lines 131-135): index the precomputed pipe results
by the item's ordinal; an out-of-range ordinal raises `IndexError`. -/
def pipesub (lines : List (List Char)) (num : Nat) : Except PyErr (List PyValue) :=
  match lines.get? num with
  | some l => .ok [.str l]
  | none => .error .indexError

/-- The per-kind dispatch of wrld.py lines 375-384 for one argument. -/
def expandArg (host : Host) (num : Nat) (line : List Char) :
    CompiledArg → Except PyErr (List PyValue)
  | .lit s => .ok [.str s]
  | .py src => .ok (pysub (host.pyEval src line))
  | .cmd s => .ok (cmdsub host s line)
  | .sub pat rep => .ok (subsub host pat rep line)
  | .pipe lines => pipesub lines num

/-- The `cmd_subbed_args` accumulation loop (wrld.py lines 374-384): each
argument's contributions are appended in order. -/
def expandAll (host : Host) (num : Nat) (line : List Char) :
    List CompiledArg → Except PyErr (List PyValue)
  | [] => .ok []
  | a :: rest =>
    match expandArg host num line a with
    | .error e => .error e
    | .ok xs =>
      match expandAll host num line rest with
      | .error e => .error e
      | .ok ys => .ok (xs ++ ys)

/-! ## Dispatcher (wrld.py lines 219-251, 391-408) -/

/-- `check_args` (wrld.py lines 219-225): a builtin must receive exactly
its registered number of arguments, counting out the command name;
otherwise the whole process exits with status 1.  (The function is only
called with a registered name; the `none` branch is unreachable.) -/
def check_args (cmd : List Char) (args : List (List Char)) : Except PyErr Unit :=
  match lookupBuiltin cmd with
  | none => .ok ()
  | some entry =>
    if args.length - 1 ≠ entry.num then .error .usageExit else .ok ()

/-- Lines 349-350 of `main`: arity-check the first template argument iff it
names a builtin.  (`args[0]` on an empty template would raise; argparse's
`nargs='+'` guarantees at least one argument.) -/
def builtinGate (args : List (List Char)) : Except PyErr Unit :=
  match args.head? with
  | none => .error .indexError
  | some h => if (lookupBuiltin h).isSome then check_args h args else .ok ()

/-- The `resolved` wrapper produced by the `builtin` decorator factory
(wrld.py lines 239-246): when registered with `resolve_dest=True` and the
final argument names an existing directory, rewrite the final argument to
`Path(args[-1], basename(args[0]))`. -/
def resolvedArgs (resolveDest : Bool) (isdir : List Char → Bool) (args : List PyValue) :
    Except PyErr (List PyValue) :=
  if resolveDest then
    match args.getLast? with
    | none => .error .indexError
    | some (.str last) =>
      if isdir last then
        match args.head? with
        | some (.str first) => .ok (args.dropLast ++ [.str (pathJoin last (basename first))])
        | some _ => .error .typeError
        | none => .error .indexError
      else .ok args
    | some _ => .error .typeError
  else .ok args

/-- Predicate used to model `shlex.quote`'s argument type requirement. -/
def isStrVal : PyValue → Bool
  | .str _ => true
  | _ => false

/-- The command echo of wrld.py line 391-392: `shlex.quote` demands string
arguments and raises `TypeError` otherwise; the printed text itself is
diagnostic output, out of model. -/
def echoCheck (noEcho : Bool) (vec : List PyValue) : Except PyErr Unit :=
  if noEcho then .ok ()
  else if vec.all isStrVal then .ok () else .error .typeError

/-- The dispatch at wrld.py lines 400-408: `cmd_subbed_args[0]` raises
`IndexError` on an empty vector; a name found in `BUILTINS` invokes the
(`resolved`-wrapped) builtin handler; on `KeyError`, a leading backslash
followed by a builtin name is stripped before spawning externally.
Slicing a non-string command raises `TypeError`. -/
def dispatch (host : Host) (vec : List PyValue) : Except PyErr Dispatch :=
  match vec with
  | [] => .error .indexError
  | cmdv :: rest =>
    match cmdv with
    | .str s =>
      match lookupBuiltin s with
      | some entry =>
        match resolvedArgs entry.resolveDest host.isdir rest with
        | .error e => .error e
        | .ok eff => .ok (.builtinCall s eff)
      | none =>
        if (lookupBuiltin s.tail).isSome && (s.head? == some '\\') then
          .ok (.external (PyValue.str s.tail :: rest))
        else
          .ok (.external (PyValue.str s :: rest))
    | _ => .error .typeError

/-! ## `main` (wrld.py lines 320-408) -/

/-- Line 347 of `main`: protect escaped braces with the sentinel. -/
def escapeBraces (s : List Char) : List Char :=
  strReplace s ('\\' :: lbrace :: rbrace :: []) [bracesChar]

/-- Lines 345-347 of `main`: when `--command-string` is given, the local
variable `args` is read (`args[0]`) before its first assignment — the later
`args = [...]` comprehension makes `args` function-local throughout, so
CPython raises `UnboundLocalError` (a `NameError`).  The not-yet-assigned
local is modelled as `none`; were it somehow assigned, line 347 would
immediately overwrite it from `a.args` anyway. -/
def mainArgsSetup (commandString : Bool) (aArgs : List (List Char)) :
    Except PyErr (List (List Char)) :=
  let argsLocalBeforeAssignment : Option (List (List Char)) := none
  if commandString then
    match argsLocalBeforeAssignment with
    | none => .error .unboundLocalError
    | some _ => .ok (aArgs.map escapeBraces)
  else .ok (aArgs.map escapeBraces)

/-- Whether any template argument is a pipe filter (line 355). -/
def hasPipeArg (args : List (List Char)) : Bool :=
  args.any (fun a => a.head? == some '|')

/-- Lines 351-360: the "whole input" text handed to pipe filters — the
joined file list when `-f` is given, the fully-read stdin when a pipe
argument is present, `None` otherwise. -/
def stdinFor (args : List (List Char)) (fileList : Option (List (List Char)))
    (stdinText : List Char) : Option (List Char) :=
  match fileList with
  | some fs => some (joinNL fs)
  | none => if hasPipeArg args then some stdinText else none

/-- Lines 351-360: the iteration items — the file list, or stdin split into
lines (read eagerly when a pipe argument needs the whole input, lazily with
`rstrip('\n')` per line otherwise; both produce the same line list). -/
def itemsFor (args : List (List Char)) (fileList : Option (List (List Char)))
    (stdinText : List Char) : List (List Char) :=
  match fileList with
  | some fs => fs
  | none =>
    if hasPipeArg args then pySplitlines stdinText
    else (pyFileLines stdinText).map rstripNL

/-- One iteration of the main loop (wrld.py lines 364-408) for item number
`i` with text `line`: insert the item text, expand every argument, echo
(unless suppressed), and dispatch (unless `--test`). -/
def processItem (host : Host) (flags : Flags) (tagged : List CompiledArg)
    (i : Nat) (line : List Char) : Except PyErr ItemResult :=
  match expandAll host i line (insert_line line tagged) with
  | .error e => .error e
  | .ok vec =>
    match echoCheck flags.noEcho vec with
    | .error e => .error e
    | .ok _ =>
      if flags.test then .ok ⟨vec, none⟩
      else
        match dispatch host vec with
        | .error e => .error e
        | .ok d => .ok ⟨vec, some d⟩

/-- The main loop over the enumerated items; an unhandled per-item
exception aborts the whole run. -/
def processItemsFrom (host : Host) (flags : Flags) (tagged : List CompiledArg) :
    Nat → List (List Char) → Except PyErr (List ItemResult)
  | _, [] => .ok []
  | i, line :: rest =>
    match processItem host flags tagged i line with
    | .error e => .error e
    | .ok r =>
      match processItemsFrom host flags tagged (i + 1) rest with
      | .error e => .error e
      | .ok rs => .ok (r :: rs)

/-- `main` after argparse (wrld.py lines 343-408): brace-escape the
template, arity-check a leading builtin name, derive the pipe input and the
item list, preprocess the template once, then expand and dispatch per item.
`templateArgs` is argparse's `args` (at least one, by `nargs='+'`),
`fileList` is `--file-list`, `stdinText` is what reading standard input
would yield. -/
def mainRun (flags : Flags) (templateArgs : List (List Char))
    (fileList : Option (List (List Char))) (stdinText : List Char) (host : Host) :
    Except PyErr (List ItemResult) :=
  Except.bind (mainArgsSetup flags.commandString templateArgs) (fun args =>
  Except.bind (builtinGate args) (fun _ =>
  Except.bind (preprocess_args host args (stdinFor args fileList stdinText)) (fun tagged =>
  processItemsFrom host flags tagged 0 (itemsFor args fileList stdinText))))

/-! ## Auxiliary definitions used by the verification -/

/-- Whether a compiled argument is a `@py` scripted expression. -/
def isPyArg : CompiledArg → Bool
  | .py _ => true
  | _ => false

/-- Spec-side post-processing of a command filter's captured output, read
off the specification's words for comparison with `cmdsub`: "capture
standard output, strip one trailing newline". -/
def stripOneNewline (s : List Char) : List Char :=
  if s.getLast? == some '\n' then s.dropLast else s

/-- A trivial host: scripted expressions evaluate to `0`, subprocesses
succeed with empty output, no path is a directory. -/
def host0 : Host := ⟨fun _ _ => .int 0, fun _ _ => [], fun _ _ => (0, []), fun _ => false⟩

/-- Default flag settings with the echo suppressed (`-q`). -/
def flags0 : Flags := ⟨false, true, false⟩

/-- A host on which every path is reported as an existing directory. -/
def hostDirs : Host := { host0 with isdir := fun _ => true }

/-- A host whose subprocesses emit `"a \n"` — output with interior trailing
whitespace before the final newline. -/
def hostWs : Host := { host0 with run := fun _ _ => (0, ("a \n".toList)) }

/-- A host whose evaluator returns the empty Python list, as CPython's
`eval` does for the expression `[]`. -/
def hostEmptyList : Host := { host0 with pyEval := fun _ _ => .list [] }

/-- A host whose subprocesses exit with status 1. -/
def hostPipeFail : Host := { host0 with run := fun _ _ => (1, []) }

/-! ## General helper lemmas -/

/-- Binding a successful `Except` computation applies the continuation. -/
theorem exbind_ok {ε α β : Type} (a : α) (f : α → Except ε β) :
    Except.bind (Except.ok a) f = f a := rfl

/-- Binding a failed `Except` computation propagates the error. -/
theorem exbind_err {ε α β : Type} (e : ε) (f : α → Except ε β) :
    Except.bind (Except.error e) f = Except.error e := rfl

/-- Without `--command-string`, `main` just brace-escapes the template. -/
theorem mainArgsSetup_false (aArgs : List (List Char)) :
    mainArgsSetup false aArgs = .ok (aArgs.map escapeBraces) := rfl

/-! ## Claim theorems -/

/-- C1 (status: code_bug).  Evaluating the whole pipeline on the argument
`s/a/b/` and the item text `banana` yields `bbnbnb` — ALL occurrences
replaced — and the `g`-flagged variant `s/a/b/g` yields the same result;
indeed both arguments compile to the identical form, because
`preprocess_args` computes `count = 0 if 'g' in flags else 1` and then
never stores or passes it: `subsub` calls `re.sub(pat, rep, line)` with the
default unbounded count.  The claim (and the spec) say `s/a/b/` performs
exactly one replacement, giving `bbnana`. -/
theorem c1_substitution_count_dropped :
    mainRun flags0 [("c".toList), ("s/a/b/".toList)] (some [("banana".toList)]) [] host0
      = .ok [⟨[.str ("c".toList), .str ("bbnbnb".toList)],
              some (.external [.str ("c".toList), .str ("bbnbnb".toList)])⟩]
  ∧ mainRun flags0 [("c".toList), ("s/a/b/g".toList)] (some [("banana".toList)]) [] host0
      = .ok [⟨[.str ("c".toList), .str ("bbnbnb".toList)],
              some (.external [.str ("c".toList), .str ("bbnbnb".toList)])⟩]
  ∧ classifyArg host0 none ("s/a/b/".toList) = classifyArg host0 none ("s/a/b/g".toList) :=
  ⟨rfl, rfl, rfl⟩

/-- C2 (status: corrected), counterexample.  A template whose command-name
argument is `\move` does NOT spawn an external process: `preprocess_args`
strips the backslash in its literal branch, the dispatcher looks up `move`
in `BUILTINS` and invokes the registered builtin handler, contradicting the
claim that the handler is not invoked for such a template. -/
theorem c2_counterexample :
    mainRun flags0 [("\\move".toList), ("a".toList), ("b".toList)] (some [("x".toList)]) [] host0
      = .ok [⟨[.str ("move".toList), .str ("a".toList), .str ("b".toList)],
              some (.builtinCall ("move".toList)
                     [.str ("a".toList), .str ("b".toList)])⟩] := rfl

/-- C2 (status: corrected), amended claim.  One leading backslash is the
general filter-syntax escape and is consumed during compilation, so `\move`
reaches the dispatcher as `move` and the builtin runs (first conjunct, at
the compilation step).  Only a doubly escaped name such as `\\move` keeps a
backslash through compilation; the dispatcher then strips that marker and
spawns the name as an external process, so the builtin handler is bypassed
(second conjunct). -/
theorem c2_amended_escape_layers :
    classifyArg host0 none ("\\move".toList) = .ok (.lit ("move".toList))
  ∧ mainRun flags0 [("\\\\move".toList), ("a".toList), ("b".toList)] (some [("x".toList)]) [] host0
      = .ok [⟨[.str ("\\move".toList), .str ("a".toList), .str ("b".toList)],
              some (.external [.str ("move".toList), .str ("a".toList), .str ("b".toList)])⟩] :=
  ⟨rfl, rfl⟩

/-- C3 (status: corrected), counterexample.  Invoking the builtin `move`
with one explicit argument — one fewer than its registered count of 2 —
is rejected as a fatal arity error (`check_args` exits with status 1)
before any item is processed; the item text is not inserted as an implicit
first argument, contradicting the claim. -/
theorem c3_counterexample :
    mainRun flags0 [("move".toList), ("x".toList)] (some [("item".toList)]) [] host0
      = .error .usageExit := rfl

/-- C4 (status: code_bug).  The registration table gives `copy` the entry
`(2, resolve_dest := False)` — despite the `builtin` decorator's own
docstring presenting `copy ~/Downloads/a_photo.jpg ~/Pictures` as the
example of destination resolution — so when the final argument names an
existing directory the `resolved` wrapper passes `copy`'s arguments through
unchanged, while for `slink` (registered with `resolve_dest=True`) it
rewrites the destination to `<dest-dir>/<basename-of-source>`. -/
theorem c4_copy_lacks_resolve_dest :
    lookupBuiltin ("copy".toList) = some ⟨2, false⟩
  ∧ dispatch hostDirs [.str ("copy".toList), .str ("d".toList), .str ("e".toList)]
      = .ok (.builtinCall ("copy".toList) [.str ("d".toList), .str ("e".toList)])
  ∧ dispatch hostDirs [.str ("slink".toList), .str ("d".toList), .str ("e".toList)]
      = .ok (.builtinCall ("slink".toList) [.str ("d".toList), .str ("e/d".toList)]) :=
  ⟨rfl, rfl, rfl⟩

/-- C5 (status: corrected), counterexample.  With a filter command whose
captured standard output is `"a \n"`, `cmdsub` contributes the argument
`"a"`: the `rstrip()` call strips the whole trailing-whitespace run.  The
claim says only the single final newline is stripped, which would give
`"a "` (trailing space preserved) — a different argument. -/
theorem c5_counterexample :
    cmdsub hostWs ("f".toList) ("x".toList) = [.str ("a".toList)]
  ∧ stripOneNewline ("a \n".toList) = ("a ".toList)
  ∧ ("a".toList) ≠ ("a ".toList) := ⟨rfl, rfl, by decide⟩

/-- C6 (status: corrected), counterexample.  For the regex-substitution
argument `s/\x7b\x7d.../` written with an escaped brace pair — concretely
`s/\〔escaped braces〕/X/` — the compiled pattern retains the private
sentinel character and is never restored to the two characters `\x7b\x7d`:
on the item `a\x7b\x7db` the substitution therefore matches nothing and the
final vector carries `a\x7b\x7db` unchanged, whereas a literal-`\x7b\x7d`
pattern (the claim's reading) would have produced `aXb`. -/
theorem c6_counterexample :
    mainRun flags0 [("c".toList), ("s/\\\x7b\x7d/X/".toList)] (some [("a\x7b\x7db".toList)]) [] host0
      = .ok [⟨[.str ("c".toList), .str ("a\x7b\x7db".toList)],
              some (.external [.str ("c".toList), .str ("a\x7b\x7db".toList)])⟩]
  ∧ strReplace ("a\x7b\x7db".toList) (lbrace :: rbrace :: []) ("X".toList) = ("aXb".toList)
  ∧ ("a\x7b\x7db".toList) ≠ ("aXb".toList) := ⟨rfl, rfl, by decide⟩

/-- C6 (status: corrected), amended claim.  An escaped brace pair is
protected by the sentinel in every argument and never has item text
substituted into it; it is restored to the literal two characters only in
arguments that remain Python strings after compilation (literals and
`@`-command filters) — for any item text, the literal argument
`a\〔escaped braces〕b` expands to `a\x7b\x7db` with no insertion (first
conjunct).  In a regex-substitution argument the sentinel survives into the
compiled pattern unrestored (second conjunct), and the sentinel is not the
literal brace pair (third conjunct). -/
theorem c6_amended_sentinel_unrestored (line : List Char) :
    insertLineStr line (escapeBraces ("a\\\x7b\x7db".toList)) = ("a\x7b\x7db".toList)
  ∧ classifyArg host0 none (escapeBraces ("s/\\\x7b\x7d/X/".toList))
      = .ok (.sub [bracesChar] (.str ("X".toList)))
  ∧ [bracesChar] ≠ (lbrace :: rbrace :: []) :=
  ⟨rfl, rfl, by decide⟩

/-- C7 (status: corrected), counterexample.  When the only template
argument is the scripted expression `@py []` — whose evaluation is the
empty Python list — the expansion contributes zero arguments, the final
argument vector handed to the dispatcher is EMPTY, and the dispatcher's
`cmd_subbed_args[0]` raises `IndexError`: the claimed invariant (vector
never empty, first element a concrete string) fails. -/
theorem c7_counterexample :
    expandAll hostEmptyList 0 ("x".toList)
        (insert_line ("x".toList) [CompiledArg.py ("[]".toList)]) = .ok []
  ∧ mainRun flags0 [("@py []".toList)] (some [("x".toList)]) [] hostEmptyList
      = .error .indexError := ⟨rfl, rfl⟩

/-- C3 (status: corrected), amended claim.  A template whose first argument
names a builtin must supply exactly the builtin's registered argument count
(counting out the name): any other count — one fewer included — makes
`check_args` terminate the whole process with a usage error before any item
is read or processed; no implicit insertion of the item text exists. -/
theorem c3_amended_exact_arity (flags : Flags) (templateArgs : List (List Char))
    (fileList : Option (List (List Char))) (stdinText : List Char) (host : Host)
    (h : List Char) (entry : BuiltinEntry)
    (hcs : flags.commandString = false)
    (hh : (templateArgs.map escapeBraces).head? = some h)
    (hb : lookupBuiltin h = some entry)
    (hn : templateArgs.length - 1 ≠ entry.num) :
    mainRun flags templateArgs fileList stdinText host = .error .usageExit := by
  have hbg : builtinGate (templateArgs.map escapeBraces) = .error .usageExit := by
    simp only [builtinGate, hh, check_args, hb, Option.isSome_some, if_true]
    rw [if_pos]
    rw [List.length_map]
    exact hn
  unfold mainRun
  rw [hcs, mainArgsSetup_false, exbind_ok, hbg, exbind_err]

/-- C3 witness: the amended theorem applied to the concrete invocation
`move x` (one argument fewer than `move`'s registered two). -/
theorem c3_amended_exact_arity_witness :
    ((flags0.commandString = false)
      ∧ ([("move".toList), ("x".toList)].map escapeBraces).head? = some ("move".toList)
      ∧ lookupBuiltin ("move".toList) = some ⟨2, false⟩
      ∧ ([("move".toList), ("x".toList)] : List (List Char)).length - 1 ≠ (2 : Nat))
  ∧ mainRun flags0 [("move".toList), ("x".toList)] (some [("i".toList)]) [] host0
      = .error .usageExit :=
  ⟨⟨rfl, rfl, rfl, by decide⟩,
   c3_amended_exact_arity flags0 [("move".toList), ("x".toList)] (some [("i".toList)]) []
     host0 ("move".toList) ⟨2, false⟩ rfl rfl rfl (by decide)⟩

/-- Helper: the head of what `dropWhile` leaves, if any, fails the
predicate. -/
theorem head_dropWhile_all_not (p : Char → Bool) (l : List Char) :
    ((l.dropWhile p).head?).all (fun c => !(p c)) = true := by
  induction l with
  | nil => rfl
  | cons c t ih =>
    by_cases hp : p c
    · simpa [List.dropWhile_cons, hp] using ih
    · simp [List.dropWhile_cons, hp]

/-- C5 (status: corrected), amended claim.  A per-item external-command
filter contributes exactly one argument: the captured standard output with
its ENTIRE trailing-whitespace run removed (`rstrip()`), not just one final
newline.  The last three conjuncts characterise the removal on any string:
what remains plus the removed suffix is the original, everything removed is
whitespace, and what remains ends in a non-whitespace character if it is
non-empty. -/
theorem c5_amended_rstrip_all (host : Host) (arg line s : List Char) :
    cmdsub host arg line = [.str (pyRstrip (host.run (shlexSplit arg) (some line)).2)]
  ∧ pyRstrip s ++ wsSuffix s = s
  ∧ (wsSuffix s).all pyIsSpace = true
  ∧ ((pyRstrip s).getLast?).all (fun c => !(pyIsSpace c)) = true := by
  refine ⟨rfl, ?_, ?_, ?_⟩
  · calc pyRstrip s ++ wsSuffix s
        = (s.reverse.takeWhile pyIsSpace ++ s.reverse.dropWhile pyIsSpace).reverse := by
          rw [List.reverse_append]
          rfl
      _ = s.reverse.reverse := by rw [List.takeWhile_append_dropWhile]
      _ = s := List.reverse_reverse s
  · rw [List.all_eq_true]
    intro c hc
    rw [wsSuffix, List.mem_reverse] at hc
    exact List.mem_takeWhile_imp hc
  · rw [pyRstrip, List.getLast?_reverse]
    exact head_dropWhile_all_not pyIsSpace s.reverse

/-- Helper: item-text insertion does not change an argument's kind. -/
theorem isPyArg_insertOne (line : List Char) (a : CompiledArg) :
    isPyArg (insertOne line a) = isPyArg a := by
  cases a <;> rfl

/-- Helper: a non-`@py` compiled argument that expands successfully
contributes exactly one argument, and that argument is a string. -/
theorem expandArg_nonpy_single_str (host : Host) (i : Nat) (line : List Char)
    (a : CompiledArg) (xs : List PyValue)
    (hna : isPyArg a = false)
    (hok : expandArg host i line a = .ok xs) : ∃ s, xs = [PyValue.str s] := by
  cases a with
  | lit s =>
    simp only [expandArg, Except.ok.injEq] at hok
    exact ⟨s, hok.symm⟩
  | py src => simp [isPyArg] at hna
  | cmd s =>
    simp only [expandArg, cmdsub, Except.ok.injEq] at hok
    exact ⟨_, hok.symm⟩
  | sub pat rep =>
    cases rep with
    | str r =>
      simp only [expandArg, subsub, Except.ok.injEq] at hok
      exact ⟨_, hok.symm⟩
    | code src =>
      simp only [expandArg, subsub, Except.ok.injEq] at hok
      exact ⟨_, hok.symm⟩
  | pipe lines =>
    simp only [expandArg, pipesub] at hok
    cases hg : lines.get? i with
    | some l =>
      rw [hg] at hok
      simp only [Except.ok.injEq] at hok
      exact ⟨l, hok.symm⟩
    | none =>
      rw [hg] at hok
      exact Except.noConfusion hok

/-- Helper: expanding a list of non-`@py` arguments yields one string per
argument. -/
theorem expandAll_nonpy_all_str (host : Host) (i : Nat) (line : List Char) :
    ∀ (args : List CompiledArg) (vec : List PyValue),
      (∀ a ∈ args, isPyArg a = false) → expandAll host i line args = .ok vec →
      vec.length = args.length ∧ vec.all isStrVal = true := by
  intro args
  induction args with
  | nil =>
    intro vec _ hok
    have hv : ([] : List PyValue) = vec := by injection hok
    subst hv
    exact ⟨rfl, rfl⟩
  | cons a rest ih =>
    intro vec hnp hok
    unfold expandAll at hok
    split at hok
    next e hea => exact Except.noConfusion hok
    next xs hea =>
      split at hok
      next e her => exact Except.noConfusion hok
      next ys her =>
        have hv : xs ++ ys = vec := by injection hok
        subst hv
        obtain ⟨s, rfl⟩ := expandArg_nonpy_single_str host i line a xs
          (hnp a (List.mem_cons_self a rest)) hea
        obtain ⟨hl, ha⟩ := ih ys (fun b hb => hnp b (List.mem_cons_of_mem a hb)) her
        constructor
        · simp [hl]
        · simp [ha, isStrVal]

/-- C7 (status: corrected), amended claim.  The claimed invariant does hold
whenever no template argument is a `@py` scripted expression: for a
non-empty compiled template, per-item expansion yields a non-empty final
vector all of whose elements — the command name in particular — are
concrete strings (literals pass through, command filters, substitutions and
pipe lookups each contribute exactly one string).  A `@py` argument whose
evaluation is an empty or non-string sequence is exactly what can break the
invariant. -/
theorem c7_amended_nonpy_vector_invariant (host : Host) (i : Nat) (line : List Char)
    (tagged : List CompiledArg) (vec : List PyValue)
    (hne : tagged ≠ [])
    (hnp : ∀ a ∈ tagged, isPyArg a = false)
    (hok : expandAll host i line (insert_line line tagged) = .ok vec) :
    vec ≠ [] ∧ vec.all isStrVal = true := by
  have hnp' : ∀ a ∈ insert_line line tagged, isPyArg a = false := by
    intro a ha
    rw [insert_line, List.mem_map] at ha
    obtain ⟨b, hb, rfl⟩ := ha
    rw [isPyArg_insertOne]
    exact hnp b hb
  obtain ⟨hlen, hall⟩ := expandAll_nonpy_all_str host i line _ vec hnp' hok
  refine ⟨?_, hall⟩
  intro hv
  subst hv
  rw [insert_line, List.length_map] at hlen
  exact hne (List.eq_nil_of_length_eq_zero hlen.symm)

/-- C7 witness: the amended theorem applied to the one-literal template
`c` on the item `x`. -/
theorem c7_amended_nonpy_vector_invariant_witness :
    (([CompiledArg.lit ("c".toList)] : List CompiledArg) ≠ []
      ∧ (∀ a ∈ ([CompiledArg.lit ("c".toList)] : List CompiledArg), isPyArg a = false)
      ∧ expandAll host0 0 ("x".toList)
          (insert_line ("x".toList) [CompiledArg.lit ("c".toList)])
          = .ok [PyValue.str ("c".toList)])
  ∧ (([PyValue.str ("c".toList)] : List PyValue) ≠ []
      ∧ ([PyValue.str ("c".toList)] : List PyValue).all isStrVal = true) :=
  ⟨⟨by decide, by decide, rfl⟩,
   c7_amended_nonpy_vector_invariant host0 0 ("x".toList) [CompiledArg.lit ("c".toList)]
     [PyValue.str ("c".toList)] (by decide) (by decide) rfl⟩

/-- C8 (status: confirmed).  A pipe filter's one-time pre-run uses
`check=True`: if the external command exits nonzero, classification raises
`CalledProcessError` carrying that exit status (second conjunct), and the
failure of `preprocess_args` propagates out of `main` before the item loop
starts — `mainRun` returns the error, producing no item results (first
conjunct).  The error is propagated, not reported-and-continued. -/
theorem c8_pipe_failure_fatal (flags : Flags) (templateArgs : List (List Char))
    (fileList : Option (List (List Char))) (stdinText : List Char) (host : Host)
    (c : Nat) (a : List Char) (stdin2 : Option (List Char))
    (hcs : flags.commandString = false)
    (hgate : builtinGate (templateArgs.map escapeBraces) = .ok ())
    (hpre : preprocess_args host (templateArgs.map escapeBraces)
              (stdinFor (templateArgs.map escapeBraces) fileList stdinText)
            = .error (.calledProcessError c))
    (hpipe : a.head? = some '|')
    (hexit : (host.run (shlexSplit a.tail) stdin2).1 ≠ 0) :
    mainRun flags templateArgs fileList stdinText host = .error (.calledProcessError c)
  ∧ classifyArg host stdin2 a
      = .error (.calledProcessError (host.run (shlexSplit a.tail) stdin2).1) := by
  constructor
  · unfold mainRun
    rw [hcs, mainArgsSetup_false, exbind_ok, hgate, exbind_ok, hpre, exbind_err]
  · obtain ⟨t, rfl⟩ : ∃ t, a = '|' :: t := by
      cases a with
      | nil => cases hpipe
      | cons x t =>
        refine ⟨t, ?_⟩
        have hx : x = '|' := by injection hpipe
        rw [hx]
    have h1 : classifyArg host stdin2 ('|' :: t)
        = (if (host.run (shlexSplit t) stdin2).1 ≠ 0
           then .error (.calledProcessError (host.run (shlexSplit t) stdin2).1)
           else .ok (.pipe (pySplitlines (host.run (shlexSplit t) stdin2).2))) := rfl
    have hexit' : (host.run (shlexSplit t) stdin2).1 ≠ 0 := hexit
    rw [h1, if_pos hexit']
    rfl

/-- C8 witness: the theorem applied to the template `c |p` on a host whose
subprocesses exit with status 1. -/
theorem c8_pipe_failure_fatal_witness :
    ((flags0.commandString = false)
      ∧ builtinGate ([("c".toList), ("|p".toList)].map escapeBraces) = .ok ()
      ∧ preprocess_args hostPipeFail ([("c".toList), ("|p".toList)].map escapeBraces)
          (stdinFor ([("c".toList), ("|p".toList)].map escapeBraces)
            (some [("x".toList)]) []) = .error (.calledProcessError 1)
      ∧ ("|p".toList).head? = some '|'
      ∧ (hostPipeFail.run (shlexSplit ("|p".toList).tail) (some ("x".toList))).1 ≠ 0)
  ∧ (mainRun flags0 [("c".toList), ("|p".toList)] (some [("x".toList)]) [] hostPipeFail
      = .error (.calledProcessError 1)
    ∧ classifyArg hostPipeFail (some ("x".toList)) ("|p".toList)
      = .error (.calledProcessError
          (hostPipeFail.run (shlexSplit ("|p".toList).tail) (some ("x".toList))).1)) :=
  ⟨⟨rfl, rfl, rfl, rfl, by decide⟩,
   c8_pipe_failure_fatal flags0 [("c".toList), ("|p".toList)] (some [("x".toList)]) []
     hostPipeFail 1 ("|p".toList) (some ("x".toList)) rfl rfl rfl rfl (by decide)⟩

/-- C9 (status: confirmed).  Whenever `--command-string` is passed, `main`
reads its local `args` (in `args[0]`) before the first assignment to it —
the later list comprehension makes `args` local to the whole function — so
an unhandled `UnboundLocalError` (a `NameError` subclass) terminates the
run before brace escaping, preprocessing, or any item processing; the flag
is unusable. -/
theorem c9_command_string_name_error (flags : Flags) (templateArgs : List (List Char))
    (fileList : Option (List (List Char))) (stdinText : List Char) (host : Host)
    (hcs : flags.commandString = true) :
    mainRun flags templateArgs fileList stdinText host = .error .unboundLocalError := by
  unfold mainRun
  rw [hcs]
  rfl

/-- C9 witness: the theorem applied to a concrete `-s` invocation. -/
theorem c9_command_string_name_error_witness :
    ((⟨true, true, false⟩ : Flags).commandString = true)
  ∧ mainRun ⟨true, true, false⟩ [("mv".toList)] none [] host0 = .error .unboundLocalError :=
  ⟨rfl, c9_command_string_name_error ⟨true, true, false⟩ [("mv".toList)] none [] host0 rfl⟩

/-- C10 (status: confirmed).  A template argument that is exactly `s`, or
the empty string, makes `preprocess_args` raise an unhandled `IndexError`
at startup: the classification indexes `arg[1]` (inside the
`startswith('s') and not arg[1].isalnum()` condition) respectively `arg[0]`
(the pipe test) without a length check.  The arguments preceding the
offending one are assumed to preprocess successfully — an earlier failing
argument would raise its own startup error first. -/
theorem c10_short_arg_index_error (host : Host) (stdin : Option (List Char))
    (pre post : List (List Char)) (bad : List Char) (r : List CompiledArg)
    (hbad : bad = ['s'] ∨ bad = [])
    (hpre : preprocess_args host pre stdin = .ok r) :
    preprocess_args host (pre ++ bad :: post) stdin = .error .indexError := by
  have hclass : classifyArg host stdin bad = .error .indexError := by
    rcases hbad with h | h
    · rw [h]; rfl
    · rw [h]; rfl
  induction pre generalizing r with
  | nil =>
    rw [List.nil_append]
    unfold preprocess_args
    simp only [hclass]
  | cons x xs ih =>
    rw [List.cons_append]
    unfold preprocess_args at hpre ⊢
    split at hpre
    next e hx => exact Except.noConfusion hpre
    next cx hx =>
      split at hpre
      next e hxs => exact Except.noConfusion hpre
      next cs hxs =>
        simp only [hx, ih cs hxs]

/-- C10 witness: the theorem applied to the one-argument template `s`. -/
theorem c10_short_arg_index_error_witness :
    ((['s'] : List Char) = ['s'] ∨ (['s'] : List Char) = [])
  ∧ preprocess_args host0 [] none = .ok []
  ∧ preprocess_args host0 ([] ++ ['s'] :: []) none = .error .indexError :=
  ⟨Or.inl rfl, rfl,
   c10_short_arg_index_error host0 none [] [] ['s'] [] (Or.inl rfl) rfl⟩

end Wrld
